import Mathlib

/-!
Verification of the deepbrowse browsing engine against its specification.

The Python source is shallowly embedded: pure helpers become Lean
functions, the mutable `DeepBrowser` / `BrowserClient` objects become
explicit state passing, and calls into external libraries (BeautifulSoup,
aiohttp, the LLM oracle) become structured inputs or function parameters.
Each embedded definition carries a comment pointing at the source
location it translates.
-/

namespace DeepBrowse

/-! ## Python string helpers

`re.sub(r"\s+", " ", text)` used by `BaseScraper.extract_text`
(parser.py, lines 27-45): every maximal run of whitespace characters is
replaced by a single space.  Python `\s` on ASCII text is space, tab,
newline, carriage return, form feed and vertical tab. -/

/-- Characters matched by the regex class `\s` (ASCII range). -/
def isPyWs (c : Char) : Bool :=
  c = ' ' || c = '\t' || c = '\n' || c = '\r' || c = '\x0b' || c = '\x0c'

/-- Core of `re.sub(r"\s+", " ", s)`: the boolean argument records whether
the previous character was part of a whitespace run already replaced. -/
def collapseWsAux : List Char → Bool → List Char
  | [], _ => []
  | c :: rest, prevWs =>
    if isPyWs c then
      (if prevWs then [] else [' ']) ++ collapseWsAux rest true
    else
      c :: collapseWsAux rest false

/-- Embedding of `re.sub(r"\s+", " ", s)` as used in `BaseScraper.extract_text`. -/
def reSubWs (s : String) : String :=
  ⟨collapseWsAux s.data false⟩

/-- Match a literal pattern at the start of the input, returning the
remainder on success. -/
def stripLit : List Char → List Char → Option (List Char)
  | [], s => some s
  | _ :: _, [] => none
  | p :: ps, c :: cs => if c = p then stripLit ps cs else none

/-- Python `s.startswith(pre)`, by code points. -/
def pyStartsWith (s pre : String) : Bool :=
  (stripLit pre.data s.data).isSome

/-! ## BeautifulSoup element model

The scraper code only ever looks at a found element through
`get_text(separator=" ", strip=True)`, so an element is modelled by the
string that call returns.  `soup.find(...)` results are `Option`s: `none`
models "no such element in the document".  A present-but-empty element is
`some ⟨""⟩` — in BeautifulSoup a `Tag` object is always truthy, even when
it has no contents. -/

structure Element where
  getText : String
deriving DecidableEq, Repr

/-- A `<meta>` tag as the code inspects it: `content` is the value of its
`content` attribute, `none` when the attribute is absent. -/
structure MetaTag where
  content : Option String
deriving DecidableEq, Repr

/-- Embedding of `BaseScraper.extract_text` (parser.py, lines 27-45): `None` maps to
the empty string, otherwise whitespace runs are collapsed. -/
def extract_text : Option Element → String
  | none => ""
  | some e => reSubWs e.getText

/-- The three queries `ContentScraper.extract_title` issues against the
parsed document: `soup.find("title")`, `soup.find("h1")` and
`soup.find("meta", property="og:title")`. -/
structure TitleView where
  title_tag : Option Element
  h1_tag : Option Element
  og_title : Option MetaTag
deriving DecidableEq, Repr

/-- Embedding of `ContentScraper.extract_title` (parser.py, lines 167-195).  The
branch conditions are Python truthiness: a found tag is always truthy
(so the check is on presence), while `meta_title.get("content")` is
truthy only for a present, non-empty attribute value. -/
def extract_title (d : TitleView) : String :=
  match d.title_tag with
  | some t => extract_text (some t)
  | none =>
    match d.h1_tag with
    | some h => extract_text (some h)
    | none =>
      match d.og_title with
      | some m =>
        match m.content with
        | some c => if c = "" then "Untitled Page" else c
        | none => "Untitled Page"
      | none => "Untitled Page"

/-- Truthiness of `meta_title and meta_title.get("content")`. -/
def metaContentTruthy : Option MetaTag → Bool
  | none => false
  | some m =>
    match m.content with
    | some c => !(c == "")
    | none => false

/-- Parsed view of `<html><head><title></title></head><body><h1>Hello</h1></body></html>`:
a present but empty `<title>` element and a non-empty `<h1>`. -/
def emptyTitleDoc : TitleView :=
  { title_tag := some ⟨""⟩, h1_tag := some ⟨"Hello"⟩, og_title := none }

/-! ## `BaseScraper.extract_links` (parser.py, lines 48-81)

An anchor is what `soup.find_all("a", href=True)` yields: a tag that has
an `href` attribute (possibly the empty string) together with its text.
`urljoin` is Python's `urllib.parse.urljoin`, an external library call,
so the embedding takes the resolver as a function parameter. -/

structure Anchor where
  href : String
  getText : String
deriving DecidableEq, Repr

/-- One record of the returned link list: `{"url": ..., "text": ...}`. -/
structure Link where
  url : String
  text : String
deriving DecidableEq, Repr

/-- The skip condition in the loop:
`not href or href.startswith("javascript:") or href.startswith("#")`. -/
def skipAnchor (href : String) : Bool :=
  href == "" || pyStartsWith href "javascript:" || pyStartsWith href "#"

/-- The test `href.startswith("http://") or href.startswith("https://")`. -/
def isAbsolute (href : String) : Bool :=
  pyStartsWith href "http://" || pyStartsWith href "https://"

/-- Python truthiness of the scraper's `self.url` attribute (`None` and
the empty string are falsy). -/
def urlTruthy : Option String → Bool
  | none => false
  | some u => !(u == "")

/-- The `for a_tag in self.soup.find_all("a", href=True)` loop of
`BaseScraper.extract_links`, appending in document order. -/
def extract_links (join : String → String → String) (base : Option String) :
    List Anchor → List Link
  | [] => []
  | a :: rest =>
    if skipAnchor a.href then
      extract_links join base rest
    else
      let href :=
        if urlTruthy base && !isAbsolute a.href then join (base.getD "") a.href
        else a.href
      { url := href, text := reSubWs a.getText } :: extract_links join base rest

/-- The spec's description of the link list ("every anchor with non-empty
href, excluding javascript: pseudo-links and pure fragment links;
relative hrefs resolved against a caller-supplied base URL when given;
text whitespace-normalized, document order preserved") as a
filter-then-map, to be compared with the loop above. -/
def links_spec (join : String → String → String) (base : Option String)
    (anchors : List Anchor) : List Link :=
  (anchors.filter (fun a => !skipAnchor a.href)).map fun a =>
    { url :=
        if urlTruthy base && !isAbsolute a.href then join (base.getD "") a.href
        else a.href,
      text := reSubWs a.getText }

/-- Model of `urllib.parse.urljoin` (external library) restricted to the
forms exercised here: an absolute http(s) reference is returned as is, a
root-relative reference is attached to the scheme and host of the base,
and any other reference replaces the last path segment of the base. -/
def urljoin_model (base rel : String) : String :=
  if isAbsolute rel then rel
  else if pyStartsWith rel "/" then
    let afterScheme :=
      if pyStartsWith base "https://" then (8, "https://")
      else if pyStartsWith base "http://" then (7, "http://")
      else (0, "")
    let hostChars := (base.data.drop afterScheme.1).takeWhile (fun c => c ≠ '/')
    afterScheme.2 ++ String.mk hostChars ++ rel
  else
    let kept := (base.data.reverse.dropWhile (fun c => c ≠ '/')).reverse
    String.mk kept ++ rel

/-- The anchors of the spec's example document: two absolute links, one
pure fragment link, one `javascript:` pseudo-link, one root-relative
link, in document order. -/
def exampleAnchors : List Anchor :=
  [⟨"https://a.com/x", "A"⟩, ⟨"#top", "Top"⟩, ⟨"javascript:void(0)", "J"⟩,
   ⟨"https://b.com/y", "B"⟩, ⟨"/about", "C  D"⟩]

/-! ## The oracle-facing `extract_links` tool (agent.py, lines 296-308)

The tool runs `re.findall(r'<a href=[\x27"]?(http[^\x27" >]+)', html)`
and post-processes the match list.  The regex engine is modelled as a
left-to-right scanner: at each position it tries the literal
`<a href=`, an optional single or double quote, the literal `http` and
then a maximal non-empty run of characters outside the negated class;
on success it emits the capture and resumes after the match, otherwise
it advances one character. -/

/-- Apostrophe and double-quote characters, by code point. -/
def squote : Char := Char.ofNat 39

def dquote : Char := Char.ofNat 34

/-- Characters admitted by the negated class `[^\x27" >]`. -/
def linkChar (c : Char) : Bool :=
  !(c = squote || c = dquote || c = ' ' || c = '>')

/-- The optional-quote step `[\x27"]?`: one leading single or double
quote is consumed when present. -/
def dropQuote : List Char → List Char
  | c :: cs => if c = squote || c = dquote then cs else c :: cs
  | [] => []

/-- Try the whole link regex at the start of the input; on success return
the capture group (which always starts with `http`) and the remainder
after the match. -/
def linkCapture (s : List Char) : Option (List Char × List Char) :=
  (stripLit "<a href=".data s).bind fun r1 =>
    (stripLit "http".data (dropQuote r1)).bind fun r3 =>
      if (r3.takeWhile linkChar).isEmpty then none
      else some ('h' :: 't' :: 't' :: 'p' :: r3.takeWhile linkChar,
                 r3.dropWhile linkChar)

/-- The `re.findall` scan.  The fuel argument only bounds the recursion;
every step consumes at least one character, so fuel equal to the input
length never runs out. -/
def findAllLinks : Nat → List Char → List String
  | 0, _ => []
  | _ + 1, [] => []
  | fuel + 1, c :: cs =>
    match linkCapture (c :: cs) with
    | some (cap, rest) => String.mk cap :: findAllLinks fuel rest
    | none => findAllLinks fuel cs

/-- Embedding of `re.findall(r'<a href=[\x27"]?(http[^\x27" >]+)', html)`. -/
def re_findall_links (html : String) : List String :=
  findAllLinks html.data.length html.data

/-- The `extract_links` tool closure handed to the oracle
(agent.py, lines 296-308): truncate past 10 matches, or return the
sentinel when nothing matched. -/
def extract_links_tool (html : String) : List String :=
  let links := re_findall_links html
  if links.length > 10 then links.take 10 ++ ["... more links truncated"]
  else if links.isEmpty then ["No links found"]
  else links

/-- HTML holding eleven matching anchors. -/
def elevenLinksHtml : String :=
  String.join ((List.range 11).map fun i =>
    "<a href=" ++ String.mk [dquote] ++ "http://site" ++ toString i ++
      ".example/" ++ String.mk [dquote] ++ ">link</a>")

/-- HTML holding a single matching anchor. -/
def oneLinkHtml : String :=
  "<p>intro</p><a href=" ++ String.mk [dquote] ++ "http://one.example/a" ++
    String.mk [dquote] ++ ">x</a>"

/-! ## `BrowserClient` (navigate.py)

The client's mutable `self.history` list becomes explicit state.  One
fetch is driven by a `FetchOutcome`: either the transport produced a
response (with a status code and a body), or it raised an
`aiohttp.ClientError` before any response existed.  `get` and `post`
append their history dict as soon as the response is available, then
call `response.raise_for_status()`, which raises exactly when the status
code is at least 400; both the status error and the connection error are
re-raised as `Exception(error_msg)`, modelled by `Except.error`.  The
history dict written by `get` (lines 59-66) has keys `url`, `status`,
`timestamp` — and no `method` key — while the one written by `post`
(lines 101-109) also has `"method": "POST"`; the absent key is modelled
by `method = none`.  `asyncio.get_event_loop().time()` is abstracted
into the `now` argument. -/

structure HistoryEntry where
  url : String
  method : Option String
  status : Nat
  timestamp : Nat
deriving DecidableEq, Repr

structure BrowserClient where
  history : List HistoryEntry
deriving DecidableEq, Repr

inductive FetchOutcome where
  | response (status : Nat) (body : String)
  | connFail (msg : String)
deriving DecidableEq, Repr

/-- Message text of the `aiohttp.ClientResponseError` raised by
`raise_for_status` (external library), abstracted to the status code. -/
def statusMessage (status : Nat) : String :=
  toString status

/-- Embedding of `BrowserClient.get` (navigate.py, lines 40-77). -/
def BrowserClient.get (c : BrowserClient) (url : String) (now : Nat)
    (outcome : FetchOutcome) : BrowserClient × Except String String :=
  match outcome with
  | .response status body =>
    let c1 : BrowserClient :=
      { history := c.history ++
          [{ url := url, method := none, status := status, timestamp := now }] }
    if 400 ≤ status then
      (c1, .error ("Error fetching " ++ url ++ ": " ++ statusMessage status))
    else
      (c1, .ok body)
  | .connFail msg =>
    (c, .error ("Error fetching " ++ url ++ ": " ++ msg))

/-- Embedding of `BrowserClient.post` (navigate.py, lines 79-120). -/
def BrowserClient.post (c : BrowserClient) (url : String) (now : Nat)
    (outcome : FetchOutcome) : BrowserClient × Except String String :=
  match outcome with
  | .response status body =>
    let c1 : BrowserClient :=
      { history := c.history ++
          [{ url := url, method := some "POST", status := status, timestamp := now }] }
    if 400 ≤ status then
      (c1, .error ("Error posting to " ++ url ++ ": " ++ statusMessage status))
    else
      (c1, .ok body)
  | .connFail msg =>
    (c, .error ("Error posting to " ++ url ++ ": " ++ msg))

/-- Whether a fetch raised. -/
def raised : Except String String → Bool
  | .error _ => true
  | .ok _ => false

/-! ## `DeepBrowser` summary builder (browser.py)

`collected_data` entries are the dicts the agent produces; the three
keys the summary builder reads may each be absent (`dict.get` with a
default), modelled by `Option`. -/

structure CollectedDatum where
  title : Option String
  url : Option String
  content : Option String
deriving DecidableEq, Repr

/-- The content preview: `content[:200] + "..." if len(content) > 200
else content` (browser.py, line 109). -/
def content_snippet (content : String) : String :=
  if content.length > 200 then content.take 200 ++ "..." else content

/-- The three `summary_parts` entries one source contributes, with the
1-based index `i` from `enumerate(collected_data, 1)`
(browser.py, lines 100-110). -/
def source_block (i : Nat) (d : CollectedDatum) : String :=
  let title := d.title.getD ("Source " ++ toString i)
  let url := d.url.getD "Unknown URL"
  let content := d.content.getD "No content extracted"
  "### " ++ title ++ "\n" ++ "- URL: " ++ url ++ "\n" ++
    "- Content preview: " ++ content_snippet content ++ "\n\n"

/-- The `for i, data in enumerate(collected_data, 1)` loop joined by
`"".join`. -/
def source_blocks : Nat → List CollectedDatum → String
  | _, [] => ""
  | i, d :: rest => source_block i d ++ source_blocks (i + 1) rest

/-- Embedding of `DeepBrowser._generate_summary` (browser.py, lines 76-113).  The
prompt parameter is accepted and, as in the source, unused. -/
def generate_summary (prompt : String) (collected : List CollectedDatum) : String :=
  if collected.isEmpty then "No data was collected during the browsing session."
  else
    "## Summary of findings\n\n" ++
      "Based on " ++ toString collected.length ++ " sources:\n\n" ++
      source_blocks 1 collected

/-- The spec's description of the non-empty case: header line, source
count line, then per source (1-based position) a title line, a URL line
and a capped content preview, in order. -/
def summary_spec (collected : List CollectedDatum) : String :=
  match collected with
  | [] => "No data was collected during the browsing session."
  | _ =>
    "## Summary of findings\n\n" ++
      "Based on " ++ toString collected.length ++ " sources:\n\n" ++
      (((List.range collected.length).zip collected).map
        fun p => source_block (p.1 + 1) p.2).foldr (· ++ ·) ""

/-! ## `DeepBrowser` state and `ask` (browser.py, lines 8-74)

`__init__` sets `self.collected_data = []` and `self.summary = ""`.
`ask` builds a fresh `session_data` dict, awaits
`agent.execute_browsing_session`, and catches any exception into the
dict's `error` field; the coroutine's outcome (its returned results
dict, or an exception) is the `outcome` argument. -/

structure PageVisit where
  url : String
  title : String
  timestamp : Nat
deriving DecidableEq, Repr

/-- The results dict `execute_browsing_session` returns
(agent.py, line 47): `{"collected_data": [], "pages_visited": [],
"error": None}`, filled in during the session. -/
structure AgentResults where
  collected_data : List CollectedDatum
  pages_visited : List PageVisit
  error : Option String
deriving DecidableEq, Repr

/-- The `session_data` dict `ask` returns.  The `summary` key is only
inserted when data was collected, hence the `Option`. -/
structure SessionData where
  prompt : String
  pages_visited : List PageVisit
  data_collected : List CollectedDatum
  completed : Bool
  error : Option String
  summary : Option String
deriving DecidableEq, Repr

structure DeepBrowserState where
  collected_data : List CollectedDatum
  summary : String
deriving DecidableEq, Repr

/-- Embedding of `DeepBrowser.__init__` (browser.py, lines 8-13). -/
def DeepBrowserState.init : DeepBrowserState :=
  { collected_data := [], summary := "" }

/-- Embedding of `DeepBrowser.get_summary` (browser.py, lines 67-74). -/
def get_summary (b : DeepBrowserState) : String :=
  b.summary

/-- Embedding of `DeepBrowser.ask` (browser.py, lines 15-65) as a state transition:
on a returned results dict it stores the collected data, marks the
session completed, and computes a summary only when data was collected;
on an exception it records `str(e)` and returns the initial session
dict unchanged. -/
def ask (b : DeepBrowserState) (prompt : String)
    (outcome : Except String AgentResults) : DeepBrowserState × SessionData :=
  let session0 : SessionData :=
    { prompt := prompt, pages_visited := [], data_collected := [],
      completed := false, error := none, summary := none }
  match outcome with
  | .ok results =>
    let b1 : DeepBrowserState := { b with collected_data := results.collected_data }
    let session1 : SessionData :=
      { session0 with
          pages_visited := results.pages_visited,
          data_collected := results.collected_data,
          completed := true }
    if results.collected_data.isEmpty then (b1, session1)
    else
      let s := generate_summary prompt results.collected_data
      ({ b1 with summary := s }, { session1 with summary := some s })
  | .error e =>
    (b, { session0 with error := some e })

/-! ## `BrowsingAgent.execute_browsing_session`, fallback path
(agent.py, lines 31-158)

When `_setup_agent` fails (`self.agent_executor = None`) the function
runs the deterministic fallback loop.  Navigation
(`browser_client.get`) is abstracted to `nav : String → Except String
String`; the parser calls on a fetched document
(`parser.extract_title`, `extract_main_content`,
`extract_metadata()["title"]`) are the three function parameters.  The
wall clock is abstracted into `fuel`, the number of iterations the
`while time.time() - start_time < time_limit` check still admits; the
visit timestamps (`time.time()`) are modelled by the visit count.  Any
exception inside the loop is caught by the function's own
`except Exception` (lines 150-158), which stores
`f"Error during browsing session: {str(e)}..."` in the results dict's
`error` field (the appended traceback text is omitted) and returns the
partially filled results — the function itself never raises. -/

/-- Embedding of `prompt.replace(" ", "+")`. -/
def plusify (s : String) : String :=
  s.map fun c => if c = ' ' then '+' else c

/-- The search URL `_determine_next_action` issues first
(agent.py, lines 465-469). -/
def googleSearchUrl (prompt : String) : String :=
  "https://www.google.com/search?q=" ++ plusify prompt

/-- Embedding of `_determine_next_action`: a `browse` action with the search URL when
no page was visited yet, otherwise a `follow_link` action — which the
loop body ignores, hence `none`. -/
def fallback_action (prompt : String) (pages : List PageVisit) : Option String :=
  if pages.isEmpty then some (googleSearchUrl prompt) else none

/-- The fallback `while` loop of `execute_browsing_session`
(agent.py, lines 96-145) together with the surrounding
`try`/`except`. -/
def fallback_loop (nav : String → Except String String)
    (parseTitle parseContent parseMetaTitle : String → String)
    (prompt : String) :
    Nat → List PageVisit → List CollectedDatum → AgentResults
  | 0, pages, collected =>
    { collected_data := collected, pages_visited := pages, error := none }
  | fuel + 1, pages, collected =>
    if pages.length ≥ 3 then
      { collected_data := collected, pages_visited := pages, error := none }
    else
      match fallback_action prompt pages with
      | none => fallback_loop nav parseTitle parseContent parseMetaTitle prompt fuel
          pages collected
      | some url =>
        match nav url with
        | .error e =>
          { collected_data := collected, pages_visited := pages,
            error := some ("Error during browsing session: " ++ e) }
        | .ok html =>
          let pages1 := pages ++
            [{ url := url, title := parseTitle html, timestamp := pages.length }]
          let collected1 := collected ++
            [{ title := some (parseMetaTitle html), url := some url,
               content := some (parseContent html) }]
          fallback_loop nav parseTitle parseContent parseMetaTitle prompt fuel
            pages1 collected1

/-- Embedding of `execute_browsing_session` in the fallback configuration: the loop
started on the empty session results. -/
def execute_browsing_session (nav : String → Except String String)
    (parseTitle parseContent parseMetaTitle : String → String)
    (prompt : String) (fuel : Nat) : AgentResults :=
  fallback_loop nav parseTitle parseContent parseMetaTitle prompt fuel [] []

/-- A transport on which every navigation fails before a response. -/
def navAlwaysFail : String → Except String String :=
  fun _ => .error "Cannot connect to host"

/-! ## `_extract_important_content` (agent.py, lines 311-411)

The condensed-mode distiller.  Its default branch (lines 400-411) runs
`re.search(r"<title>(.*?)</title>", html, re.DOTALL)` and
`re.findall(r"<p[^>]*>(.*?)</p>", html, re.DOTALL)` and accumulates at
most the first 5 paragraph captures, each appended whole (followed by
two newlines) only while the accumulated text is still shorter than
3000 characters.  The Google-search branch and the iPhone
specification-page branch are out of the claim's scope and enter the
embedding as function parameters (`specBranch` returns `none` when its
pattern battery finds nothing, in which case the code falls through to
the default branch). -/

/-- Find the first occurrence of a literal pattern; on success return
the text before it and the remainder after it. -/
def findLit (pat : List Char) : List Char → Option (List Char × List Char)
  | [] =>
    match stripLit pat [] with
    | some rest => some ([], rest)
    | none => none
  | c :: cs =>
    match stripLit pat (c :: cs) with
    | some rest => some ([], rest)
    | none => (findLit pat cs).map fun p => (c :: p.1, p.2)

/-- Python `sub in s`. -/
def containsSub (sub s : String) : Bool :=
  (findLit sub.data s.data).isSome

/-- The test `"google.com/search" in url` (agent.py, line 315). -/
def is_search_url (url : String) : Bool :=
  containsSub "google.com/search" url

/-- The test `"iphone-15-pro" in url or "iphone-16-pro" in url`
(agent.py, line 366). -/
def is_spec_url (url : String) : Bool :=
  containsSub "iphone-15-pro" url || containsSub "iphone-16-pro" url

/-- Embedding of `re.search(r"<title>(.*?)</title>", html, re.DOTALL)` followed by
the `"Unknown Title"` default (agent.py, lines 401-402): the capture is
the text between the first `<title>` and the earliest following
`</title>`. -/
def condense_title (html : String) : String :=
  match findLit "<title>".data html.data with
  | none => "Unknown Title"
  | some (_, rest) =>
    match findLit "</title>".data rest with
    | none => "Unknown Title"
    | some (cap, _) => String.mk cap

/-- Try `<p[^>]*>(.*?)</p>` at the start of the input: the literal
`<p`, a maximal run of non-`>` characters, a `>`, then a lazy capture
up to the earliest `</p>`. -/
def paraCapture (s : List Char) : Option (List Char × List Char) :=
  match stripLit "<p".data s with
  | none => none
  | some r1 =>
    match r1.dropWhile (fun c => c ≠ '>') with
    | '>' :: r2 =>
      match findLit "</p>".data r2 with
      | some (cap, rest) => some (cap, rest)
      | none => none
    | _ => none

/-- The `re.findall` scan for paragraph captures; as with the link
scanner, fuel equal to the input length never runs out. -/
def findAllParas : Nat → List Char → List String
  | 0, _ => []
  | _ + 1, [] => []
  | fuel + 1, c :: cs =>
    match paraCapture (c :: cs) with
    | some (cap, rest) => String.mk cap :: findAllParas fuel rest
    | none => findAllParas fuel cs

/-- Embedding of `re.findall(r"<p[^>]*>(.*?)</p>", html, re.DOTALL)`. -/
def condense_paras (html : String) : List String :=
  findAllParas html.data.length html.data

/-- The accumulation loop over `paragraphs[:5]`
(agent.py, lines 406-409): `if len(content) < 3000: content += p + "\n\n"`. -/
def condense_content_loop : List String → String → String
  | [], acc => acc
  | p :: rest, acc =>
    condense_content_loop rest
      (if acc.length < 3000 then acc ++ p ++ "\n\n" else acc)

/-- The accumulated paragraph text of the default branch. -/
def condense_content (paras : List String) : String :=
  condense_content_loop (paras.take 5) ""

/-- The default branch of `_extract_important_content`
(agent.py, lines 400-411). -/
def extract_important_content_default (html : String) : String :=
  "<html><body><h1>" ++ condense_title html ++ "</h1>" ++
    condense_content (condense_paras html) ++ "</body></html>"

/-- Embedding of `_extract_important_content(html, url)` (agent.py, lines 311-411)
with the two special-page branches as parameters. -/
def extract_important_content (searchBranch : String → String)
    (specBranch : String → Option String) (html url : String) : String :=
  if is_search_url url then searchBranch html
  else if is_spec_url url then
    match specBranch html with
    | some out => out
    | none => extract_important_content_default html
  else extract_important_content_default html

/-- A run of 1600 `a` characters. -/
def aRun : String :=
  String.mk (List.replicate 1600 'a')

/-- A page with a title and two 1600-character paragraphs. -/
def twoBigParasHtml : String :=
  "<title>T</title><p>" ++ aRun ++ "</p><p>" ++ aRun ++ "</p>"

/-! ## Claim C3: the title cascade -/

/-- C3, counterexample.  The claim says the cascade takes the first
non-empty value, so a document with an empty `<title>` element and a
non-empty `<h1>` should yield the `<h1>` text; `extract_title` actually
branches on element presence and returns the empty `<title>` text. -/
theorem extract_title_empty_title_shadows_h1 :
    extract_title emptyTitleDoc = "" ∧ extract_title emptyTitleDoc ≠ "Hello" := by
  exact ⟨rfl, by decide⟩

/-- C3, amended.  The cascade is decided by element presence, not by
non-emptiness: a present `<title>` wins even when its text is empty and
an `<h1>` wins over `og:title` even when its text is empty; only the
`og:title` step requires a non-empty `content` attribute, and
"Untitled Page" is returned exactly when `<title>` and `<h1>` are
absent and no `og:title` meta with non-empty content exists. -/
theorem extract_title_presence_cascade (d : TitleView) :
    (∀ t, d.title_tag = some t → extract_title d = reSubWs t.getText) ∧
    (d.title_tag = none → ∀ h, d.h1_tag = some h →
      extract_title d = reSubWs h.getText) ∧
    (d.title_tag = none → d.h1_tag = none → ∀ m c, d.og_title = some m →
      m.content = some c → c ≠ "" → extract_title d = c) ∧
    (d.title_tag = none → d.h1_tag = none →
      metaContentTruthy d.og_title = false → extract_title d = "Untitled Page") := by
  refine ⟨?_, ?_, ?_, ?_⟩
  · intro t ht
    simp [extract_title, ht, extract_text]
  · intro h0 h hh
    simp [extract_title, h0, hh, extract_text]
  · intro h0 h1 m c hm hc hne
    simp [extract_title, h0, h1, hm, hc, hne]
  · intro h0 h1 hog
    cases hm : d.og_title with
    | none => simp [extract_title, h0, h1, hm]
    | some m =>
      cases hc : m.content with
      | none => simp [extract_title, h0, h1, hm, hc]
      | some c =>
        rw [hm] at hog
        simp only [metaContentTruthy, hc, Bool.not_eq_false', beq_iff_eq] at hog
        simp [extract_title, h0, h1, hm, hc, hog]

/-- C3, amended claim at a concrete document with only a `<title>`. -/
theorem extract_title_presence_cascade_witness :
    extract_title ⟨some ⟨"Hello World"⟩, none, none⟩ = "Hello World" := by
  have h := (extract_title_presence_cascade ⟨some ⟨"Hello World"⟩, none, none⟩).1
    ⟨"Hello World"⟩ rfl
  exact h.trans (by decide)

/-! ## Claim C5: `get_summary` before any `ask` -/

/-- C5, counterexample.  A fresh `DeepBrowser` has `summary = ""`, so
`get_summary` before any `ask` call returns the empty string, not the
fixed "no data" sentence. -/
theorem get_summary_initial_cex :
    get_summary DeepBrowserState.init
      ≠ "No data was collected during the browsing session." := by
  decide

/-- C5, amended: `get_summary` on a freshly constructed browser returns
the empty string (`self.summary = ""` from `__init__`). -/
theorem get_summary_initial_empty :
    get_summary DeepBrowserState.init = "" := rfl

/-! ## Claim C6: history entry fields -/

/-- C6, counterexample.  The history dict appended by a GET request has
no `method` key (modelled as `method = none`), so not every
`NavigationHistoryEntry` carries all four fields `url`, `method`,
`status`, `timestamp`. -/
theorem get_history_entry_lacks_method :
    ((BrowserClient.get ⟨[]⟩ "https://example.com" 0
        (.response 200 "ok")).1.history.map (fun e => e.method)) = [none] := by
  decide

/-- C6, amended.  A POST response appends an entry carrying all four
fields (`method = "POST"`); a GET response appends an entry carrying
`url`, `status` and `timestamp` but no `method` key. -/
theorem history_entry_fields (c : BrowserClient) (url : String)
    (now status : Nat) (body : String) :
    (c.get url now (.response status body)).1.history
      = c.history ++ [{ url := url, method := none, status := status,
                        timestamp := now }] ∧
    (c.post url now (.response status body)).1.history
      = c.history ++ [{ url := url, method := some "POST", status := status,
                        timestamp := now }] := by
  constructor
  · simp only [BrowserClient.get]
    split <;> rfl
  · simp only [BrowserClient.post]
    split <;> rfl

/-! ## Claim C7: full-mode link extraction -/

/-- C7.  The extraction loop returns one `{url, text}` record per anchor
with a non-empty href, excluding `javascript:` pseudo-links and pure
fragment links, resolving relative hrefs against the base URL when one
is set, normalizing text whitespace and preserving document order
(stated as equality with the filter-then-map reading of the spec); on
the spec's example — two absolute links, one fragment link, one
javascript link, one root-relative link — exactly three records come
back in document order. -/
theorem extract_links_matches_spec :
    (∀ (join : String → String → String) (base : Option String)
        (anchors : List Anchor),
      extract_links join base anchors = links_spec join base anchors) ∧
    extract_links urljoin_model (some "https://base.com/index.html")
        exampleAnchors
      = [⟨"https://a.com/x", "A"⟩, ⟨"https://b.com/y", "B"⟩,
         ⟨"https://base.com/about", "C D"⟩] := by
  constructor
  · intro join base anchors
    induction anchors with
    | nil => rfl
    | cons a rest ih =>
      cases h : skipAnchor a.href with
      | true => simpa [extract_links, links_spec, List.filter_cons, h] using ih
      | false => simpa [extract_links, links_spec, List.filter_cons, h] using ih
  · decide

/-! ## Claim C2: fetch appends history before the status check -/

/-- C2.  For both GET and POST: a received response (any status)
appends exactly one history entry before the status check, and the call
raises exactly for 4xx/5xx statuses; a connection failure that never
produces a response appends nothing and raises. -/
theorem fetch_history_and_raise (c : BrowserClient) (url : String) (now : Nat)
    (status : Nat) (body msg : String)
    (hlo : 100 ≤ status) (hhi : status ≤ 599) :
    ((c.get url now (.response status body)).1.history
        = c.history ++ [⟨url, none, status, now⟩]) ∧
    ((c.post url now (.response status body)).1.history
        = c.history ++ [⟨url, some "POST", status, now⟩]) ∧
    (raised (c.get url now (.response status body)).2 = true
        ↔ 400 ≤ status ∧ status ≤ 599) ∧
    (raised (c.post url now (.response status body)).2 = true
        ↔ 400 ≤ status ∧ status ≤ 599) ∧
    (c.get url now (.connFail msg)).1.history = c.history ∧
    (c.post url now (.connFail msg)).1.history = c.history ∧
    raised (c.get url now (.connFail msg)).2 = true ∧
    raised (c.post url now (.connFail msg)).2 = true := by
  refine ⟨?_, ?_, ?_, ?_, rfl, rfl, rfl, rfl⟩
  · simp only [BrowserClient.get]
    split <;> rfl
  · simp only [BrowserClient.post]
    split <;> rfl
  · by_cases h : 400 ≤ status <;>
      simp [BrowserClient.get, raised, h] <;> omega
  · by_cases h : 400 ≤ status <;>
      simp [BrowserClient.post, raised, h] <;> omega

/-- C2 at a concrete client: a 404 GET response appends its entry and
raises. -/
theorem fetch_history_and_raise_witness :
    raised (BrowserClient.get ⟨[]⟩ "https://e.com/p" 7
        (.response 404 "gone")).2 = true ∧
    (BrowserClient.get ⟨[]⟩ "https://e.com/p" 7
        (.response 404 "gone")).1.history = [⟨"https://e.com/p", none, 404, 7⟩] := by
  have h := fetch_history_and_raise ⟨[]⟩ "https://e.com/p" 7 404 "gone" "m"
    (by decide) (by decide)
  exact ⟨h.2.2.1.mpr (by decide), by simpa using h.1⟩

/-! ## Claim C4: the oracle-facing `extract_links` tool -/

/-- Every capture the link regex produces starts with the four
characters of `http`. -/
theorem linkCapture_shape (s : List Char) :
    ∀ cap rest, linkCapture s = some (cap, rest) →
      ∃ t, cap = 'h' :: 't' :: 't' :: 'p' :: t := by
  intro cap rest h
  simp only [linkCapture, Option.bind_eq_some] at h
  obtain ⟨r1, h1, r3, h3, h4⟩ := h
  split at h4
  · exact absurd h4 (by simp)
  · exact ⟨r3.takeWhile linkChar, ((Prod.mk.injEq _ _ _ _).mp
      (Option.some.inj h4)).1.symm⟩

/-- Every string the scanner emits starts with `http`. -/
theorem findAllLinks_shape :
    ∀ (fuel : Nat) (s : List Char), ∀ l ∈ findAllLinks fuel s,
      ∃ t, l.data = 'h' :: 't' :: 't' :: 'p' :: t := by
  intro fuel
  induction fuel with
  | zero => intro s l hl; simp [findAllLinks] at hl
  | succ n ih =>
    intro s l hl
    match s with
    | [] => simp [findAllLinks] at hl
    | c :: cs =>
      rw [findAllLinks] at hl
      cases hc : linkCapture (c :: cs) with
      | none => rw [hc] at hl; exact ih cs l hl
      | some p =>
        rw [hc] at hl
        rcases List.mem_cons.mp hl with h | h
        · obtain ⟨t, ht⟩ := linkCapture_shape (c :: cs) p.1 p.2 (by rw [hc])
          exact ⟨t, by rw [h, ht]⟩
        · exact ih p.2 l h

set_option maxRecDepth 8000 in
/-- C4, counterexample.  On a page with eleven matching anchors the
tool returns an eleven-element list whose last element is the literal
truncation marker, not a link — so the result is not a list of at most
10 absolute http(s) link strings. -/
theorem extract_links_tool_eleven_cex :
    (extract_links_tool elevenLinksHtml).length = 11 ∧
    (extract_links_tool elevenLinksHtml).getLast?
      = some "... more links truncated" := by
  decide

/-- C4, amended.  With no regex match the tool returns exactly
`["No links found"]`; with between 1 and 10 matches it returns exactly
the match list (each match starting with `http`); with more than 10
matches it returns the first 10 matches followed by one extra
`"... more links truncated"` marker element, eleven elements in
total. -/
theorem extract_links_tool_spec (html : String) :
    (re_findall_links html = [] → extract_links_tool html = ["No links found"]) ∧
    (re_findall_links html ≠ [] → (re_findall_links html).length ≤ 10 →
      extract_links_tool html = re_findall_links html) ∧
    (10 < (re_findall_links html).length →
      extract_links_tool html
        = (re_findall_links html).take 10 ++ ["... more links truncated"] ∧
      (extract_links_tool html).length = 11) ∧
    (∀ l ∈ re_findall_links html, ∃ t, l.data = 'h' :: 't' :: 't' :: 'p' :: t) := by
  refine ⟨?_, ?_, ?_, findAllLinks_shape html.data.length html.data⟩
  · intro h
    simp [extract_links_tool, h]
  · intro h1 h2
    have hlen : ¬ (re_findall_links html).length > 10 := by omega
    simp [extract_links_tool, hlen, List.isEmpty_iff, h1]
  · intro h
    have h1 : (re_findall_links html).length > 10 := h
    refine ⟨by simp [extract_links_tool, h1], ?_⟩
    simp [extract_links_tool, h1, List.length_take]
    omega

/-- C4, amended claim at a concrete page with exactly one matching
anchor. -/
theorem extract_links_tool_spec_witness :
    extract_links_tool oneLinkHtml = ["http://one.example/a"] := by
  have h := (extract_links_tool_spec oneLinkHtml).2.1 (by decide) (by decide)
  exact h.trans (by decide)

/-! ## Claim C8: the summary builder -/

/-- The 1-based enumeration loop agrees with zipping against
`List.range`. -/
theorem source_blocks_eq_zip (l : List CollectedDatum) :
    ∀ k : Nat, source_blocks (k + 1) l
      = (((List.range l.length).zip l).map
          (fun p => source_block (p.1 + k + 1) p.2)).foldr (· ++ ·) "" := by
  induction l with
  | nil => intro k; simp [source_blocks]
  | cons d rest ih =>
    intro k
    rw [source_blocks, List.length_cons, List.range_succ_eq_map,
      List.zip_cons_cons, List.map_cons, List.foldr_cons, List.zip_map_left,
      List.map_map]
    have harith : ∀ p : Nat × CollectedDatum,
        ((fun p : Nat × CollectedDatum => source_block (p.1 + k + 1) p.2) ∘
          Prod.map Nat.succ id) p
          = source_block (p.1 + (k + 1) + 1) p.2 := by
      intro p
      simp only [Function.comp_apply, Prod.map_fst, Prod.map_snd, id_eq]
      congr 1
      omega
    rw [List.map_congr_left fun p _ => harith p, ← ih (k + 1)]
    simp

/-- C8.  The summary builder returns the fixed sentence on an empty
collected list, and otherwise a header line, a source-count line and,
per source in order, a title line falling back to "Source N" for the
N-th source, a URL line and a content preview — the full content when
at most 200 characters, else the first 200 characters followed by an
ellipsis marker (stated as equality with the spec-shaped rendering,
plus the preview rule itself). -/
theorem generate_summary_matches_spec (prompt : String)
    (collected : List CollectedDatum) :
    generate_summary prompt collected = summary_spec collected ∧
    (collected = [] → generate_summary prompt collected
        = "No data was collected during the browsing session.") ∧
    (∀ content : String,
      (content.length ≤ 200 → content_snippet content = content) ∧
      (200 < content.length →
        content_snippet content = content.take 200 ++ "...")) := by
  refine ⟨?_, ?_, ?_⟩
  · cases collected with
    | nil => rfl
    | cons d rest =>
      show generate_summary prompt (d :: rest) = summary_spec (d :: rest)
      rw [generate_summary, summary_spec]
      simp only [List.isEmpty_cons, Bool.false_eq_true, if_false]
      rw [show (1 : Nat) = 0 + 1 by rfl, source_blocks_eq_zip]
      simp
  · intro h
    subst h
    rfl
  · intro content
    constructor
    · intro h
      have : ¬ content.length > 200 := by omega
      simp [content_snippet, this]
    · intro h
      simp [content_snippet, h]

/-- C8 at concrete inputs: the empty case and a one-source case. -/
theorem generate_summary_matches_spec_witness :
    generate_summary "q" []
      = "No data was collected during the browsing session." ∧
    generate_summary "q" [⟨some "T", some "https://u", some "abc"⟩]
      = "## Summary of findings\n\nBased on 1 sources:\n\n### T\n- URL: https://u\n- Content preview: abc\n\n" := by
  refine ⟨(generate_summary_matches_spec "q" []).2.1 rfl, ?_⟩
  exact (generate_summary_matches_spec "q"
    [⟨some "T", some "https://u", some "abc"⟩]).1.trans (by decide)

/-! ## Claim C10: the stored summary is only overwritten on collected data -/

/-- C10.  An `ask` whose session collects no data — including one whose
agent coroutine raised — leaves the stored summary unchanged, so a
subsequent `get_summary` still returns the summary of an earlier
session; only an `ask` that collects at least one datum overwrites it,
with the summary of the new data. -/
theorem ask_summary_update_rule (b : DeepBrowserState) (prompt : String) :
    (∀ res : AgentResults, res.collected_data = [] →
      get_summary (ask b prompt (.ok res)).1 = get_summary b) ∧
    (∀ e : String, get_summary (ask b prompt (.error e)).1 = get_summary b) ∧
    (∀ res : AgentResults, res.collected_data ≠ [] →
      get_summary (ask b prompt (.ok res)).1
        = generate_summary prompt res.collected_data) := by
  refine ⟨?_, fun e => rfl, ?_⟩
  · intro res h
    simp [ask, get_summary, h]
  · intro res h
    have h1 : res.collected_data.isEmpty = false := by
      cases hc : res.collected_data with
      | nil => exact absurd hc h
      | cons d rest => rfl
    simp [ask, get_summary, h1]

/-- C10 at a concrete browser whose stored summary is "old". -/
theorem ask_summary_update_rule_witness :
    get_summary (ask ⟨[], "old"⟩ "q" (.ok ⟨[], [], none⟩)).1 = "old" ∧
    get_summary (ask ⟨[], "old"⟩ "q" (.error "boom")).1 = "old" ∧
    get_summary (ask ⟨[], "old"⟩ "q" (.ok ⟨[⟨none, none, none⟩], [], none⟩)).1
      = generate_summary "q" [⟨none, none, none⟩] := by
  obtain ⟨h1, h2, h3⟩ := ask_summary_update_rule (⟨[], "old"⟩ : DeepBrowserState) "q"
  exact ⟨h1 ⟨[], [], none⟩ rfl, h2 "boom",
    h3 ⟨[⟨none, none, none⟩], [], none⟩ (by simp)⟩

/-! ## Claim C1: sessions whose every navigation fails -/

/-- C1, counterexample.  With a transport on which every navigation
fails, the agent function catches the failure itself and returns a
results dict (with its own `error` field set), so `ask` takes its
success path: the returned session has `completed = True` and
`error = None` — not the `completed=false` / non-empty `error` the
claim requires (the collected data is indeed empty). -/
theorem ask_all_failures_cex :
    (ask DeepBrowserState.init "find info"
      (.ok (execute_browsing_session navAlwaysFail id id id "find info"
        5))).2.completed = true ∧
    (ask DeepBrowserState.init "find info"
      (.ok (execute_browsing_session navAlwaysFail id id id "find info"
        5))).2.error = none ∧
    (ask DeepBrowserState.init "find info"
      (.ok (execute_browsing_session navAlwaysFail id id id "find info"
        5))).2.data_collected = [] ∧
    (execute_browsing_session navAlwaysFail id id id "find info" 5).error
      = some "Error during browsing session: Cannot connect to host" := by
  refine ⟨rfl, rfl, rfl, rfl⟩

/-- C1, amended.  `ask` never raises; when every navigation fails the
session returns empty `data_collected` and empty `pages_visited`, but
with `completed = True` and `error = None`: the agent's own results
dict records the failure message (as soon as the deadline admits one
iteration), and `ask` drops that field.  Partially-accumulated
`collected_data` and `pages_visited` of the agent's results are always
passed through to the returned session. -/
theorem ask_all_failures_semantics (b : DeepBrowserState) (prompt : String)
    (nav : String → Except String String) (pT pC pM : String → String)
    (fuel : Nat) (hfail : ∀ url, ∃ e, nav url = .error e) :
    (execute_browsing_session nav pT pC pM prompt fuel).collected_data = [] ∧
    (execute_browsing_session nav pT pC pM prompt fuel).pages_visited = [] ∧
    (1 ≤ fuel → ∃ e, nav (googleSearchUrl prompt) = .error e ∧
      (execute_browsing_session nav pT pC pM prompt fuel).error
        = some ("Error during browsing session: " ++ e)) ∧
    (ask b prompt (.ok (execute_browsing_session nav pT pC pM prompt
        fuel))).2.completed = true ∧
    (ask b prompt (.ok (execute_browsing_session nav pT pC pM prompt
        fuel))).2.error = none ∧
    (ask b prompt (.ok (execute_browsing_session nav pT pC pM prompt
        fuel))).2.data_collected = [] ∧
    (∀ res : AgentResults,
      (ask b prompt (.ok res)).2.data_collected = res.collected_data ∧
      (ask b prompt (.ok res)).2.pages_visited = res.pages_visited) := by
  obtain ⟨e, he⟩ := hfail (googleSearchUrl prompt)
  have hres : ∀ n, 1 ≤ n → execute_browsing_session nav pT pC pM prompt n
      = { collected_data := [], pages_visited := [],
          error := some ("Error during browsing session: " ++ e) } := by
    intro n hn
    match n, hn with
    | m + 1, _ =>
      rw [execute_browsing_session, fallback_loop]
      simp [fallback_action, he]
  have hempty : (execute_browsing_session nav pT pC pM prompt fuel).collected_data
      = [] ∧ (execute_browsing_session nav pT pC pM prompt fuel).pages_visited
      = [] := by
    cases fuel with
    | zero => exact ⟨rfl, rfl⟩
    | succ m => rw [hres (m + 1) (by omega)]; exact ⟨rfl, rfl⟩
  have hpass : ∀ res : AgentResults,
      (ask b prompt (.ok res)).2.data_collected = res.collected_data ∧
      (ask b prompt (.ok res)).2.pages_visited = res.pages_visited := by
    intro res
    by_cases h : res.collected_data.isEmpty <;> simp [ask, h]
  refine ⟨hempty.1, hempty.2, ?_, ?_, ?_, ?_, hpass⟩
  · intro hn
    exact ⟨e, he, by rw [hres fuel hn]⟩
  · by_cases h : (execute_browsing_session nav pT pC pM prompt
        fuel).collected_data.isEmpty <;> simp [ask, h]
  · by_cases h : (execute_browsing_session nav pT pC pM prompt
        fuel).collected_data.isEmpty <;> simp [ask, h]
  · rw [(hpass _).1, hempty.1]

/-- C1, amended claim at a concrete always-failing transport. -/
theorem ask_all_failures_semantics_witness :
    (execute_browsing_session navAlwaysFail id id id "q" 2).collected_data
      = [] ∧
    (ask DeepBrowserState.init "q"
      (.ok (execute_browsing_session navAlwaysFail id id id "q"
        2))).2.completed = true := by
  have h := ask_all_failures_semantics DeepBrowserState.init "q" navAlwaysFail
    id id id 2 (fun url => ⟨"Cannot connect to host", rfl⟩)
  exact ⟨h.1, h.2.2.2.1⟩

/-! ## Claim C9: the condensed-mode default branch

Evaluating the paragraph scanner on the 3230-character counterexample
page is done through small stepping lemmas rather than raw kernel
reduction. -/

/-- The scanner yields nothing on an exhausted input. -/
theorem findAllParas_nil (fuel : Nat) : findAllParas fuel [] = [] := by
  cases fuel <;> rfl

/-- One scanner step on a position where the paragraph regex matches. -/
theorem findAllParas_capture (fuel : Nat) (c : Char) (cs cap rest : List Char)
    (h : paraCapture (c :: cs) = some (cap, rest)) :
    findAllParas (fuel + 1) (c :: cs)
      = String.mk cap :: findAllParas fuel rest := by
  rw [findAllParas, h]

/-- Searching for `</p>` past a run of `a` characters finds the closing
tag and captures exactly the run. -/
theorem findLit_closep_replicate (n : Nat) (rest : List Char) :
    findLit "</p>".data
        (List.replicate n 'a' ++ '<' :: '/' :: 'p' :: '>' :: rest)
      = some (List.replicate n 'a', rest) := by
  induction n with
  | zero => rfl
  | succ m ih =>
    have h1 : ∀ x : List Char, stripLit "</p>".data ('a' :: x) = none :=
      fun x => rfl
    rw [List.replicate_succ, List.cons_append, findLit, h1, ih]
    rfl

/-- The paragraph regex at `<p>` followed by a run of `a` characters and
`</p>` captures exactly the run. -/
theorem paraCapture_at_p (n : Nat) (rest : List Char) :
    paraCapture ('<' :: 'p' :: '>' ::
        (List.replicate n 'a' ++ '<' :: '/' :: 'p' :: '>' :: rest))
      = some (List.replicate n 'a', rest) := by
  have h : paraCapture ('<' :: 'p' :: '>' ::
        (List.replicate n 'a' ++ '<' :: '/' :: 'p' :: '>' :: rest))
      = match findLit "</p>".data
          (List.replicate n 'a' ++ '<' :: '/' :: 'p' :: '>' :: rest) with
        | some (cap, r) => some (cap, r)
        | none => none := rfl
  rw [h, findLit_closep_replicate]

/-- The scanner walks over the 16 characters of `<title>T</title>`
without matching. -/
theorem findAllParas_skip_title (fuel : Nat) (X : List Char) :
    findAllParas (fuel + 16)
        ('<' :: 't' :: 'i' :: 't' :: 'l' :: 'e' :: '>' :: 'T'::
         '<' :: '/' :: 't' :: 'i' :: 't' :: 'l' :: 'e' :: '>'::X)
      = findAllParas fuel X := rfl

/-- The counterexample page as an explicit character list. -/
theorem twoBigParasHtml_data : twoBigParasHtml.data
    = '<' :: 't' :: 'i' :: 't' :: 'l' :: 'e' :: '>' :: 'T'::
      '<' :: '/' :: 't' :: 'i' :: 't' :: 'l' :: 'e' :: '>'::
      ('<' :: 'p' :: '>'::(List.replicate 1600 'a' ++
        ('<' :: '/' :: 'p' :: '>'::('<' :: 'p' :: '>'::(List.replicate 1600 'a' ++
          ('<' :: '/' :: 'p' :: '>'::[])))))) := by
  have hd : ∀ a b : String, (a ++ b).data = a.data ++ b.data := fun a b => rfl
  show ("<title>T</title><p>" ++ aRun ++ "</p><p>" ++ aRun ++ "</p>").data = _
  rw [hd, hd, hd, hd]
  have h1 : ("<title>T</title><p>" : String).data
      = '<' :: 't' :: 'i' :: 't' :: 'l' :: 'e' :: '>' :: 'T'::
        '<' :: '/' :: 't' :: 'i' :: 't' :: 'l' :: 'e' :: '>' :: '<' :: 'p' :: '>'::[] := rfl
  have h2 : ("</p><p>" : String).data
      = '<' :: '/' :: 'p' :: '>' :: '<' :: 'p' :: '>'::[] := rfl
  have h3 : ("</p>" : String).data = '<' :: '/' :: 'p' :: '>'::[] := rfl
  have h4 : aRun.data = List.replicate 1600 'a' := rfl
  rw [h1, h2, h3, h4]
  simp only [List.cons_append, List.nil_append, List.append_assoc]

/-- The counterexample page scans to exactly its two 1600-character
paragraphs. -/
theorem condense_paras_twoBig :
    condense_paras twoBigParasHtml = [aRun, aRun] := by
  have hlen : twoBigParasHtml.data.length = 3230 := by
    rw [twoBigParasHtml_data]
    simp only [List.length_cons, List.length_append, List.length_replicate,
      List.length_nil]
  rw [condense_paras, hlen, twoBigParasHtml_data]
  rw [show (3230 : Nat) = 3214 + 16 from rfl, findAllParas_skip_title]
  rw [show (3214 : Nat) = 3213 + 1 from rfl,
    findAllParas_capture 3213 _ _ _ _ (paraCapture_at_p 1600
      ('<' :: 'p' :: '>'::(List.replicate 1600 'a' ++ ('<' :: '/' :: 'p' :: '>'::[]))))]
  rw [show (3213 : Nat) = 3212 + 1 from rfl,
    findAllParas_capture 3212 _ _ _ _ (paraCapture_at_p 1600 [])]
  rw [findAllParas_nil]
  rfl

theorem aRun_length : aRun.length = 1600 := by
  show (List.replicate 1600 'a').length = 1600
  exact List.length_replicate 1600 'a'

/-- C9, counterexample.  On a page with two 1600-character paragraphs
the default branch accumulates 3204 characters of paragraph text —
more than the 3000-character limit the claim states — because the limit
is only checked before each append and each paragraph is appended
whole. -/
theorem condensed_default_exceeds_3000 :
    (condense_paras twoBigParasHtml).length = 2 ∧
    (condense_content (condense_paras twoBigParasHtml)).length = 3204 ∧
    (extract_important_content_default twoBigParasHtml).length = 3240 := by
  have hnn : ("\n\n" : String).length = 2 := rfl
  have hcc : (condense_content (condense_paras twoBigParasHtml)).length
      = 3204 := by
    rw [condense_paras_twoBig, condense_content,
      show ([aRun, aRun].take 5) = [aRun, aRun] from rfl]
    rw [condense_content_loop, if_pos (by decide : ("" : String).length < 3000)]
    have h1 : ("" ++ aRun ++ "\n\n").length = 1602 := by
      simp [String.length_append, aRun_length, hnn]
    rw [condense_content_loop, if_pos (by rw [h1]; norm_num)]
    rw [condense_content_loop]
    simp [String.length_append, aRun_length, hnn]
  refine ⟨by rw [condense_paras_twoBig]; rfl, hcc, ?_⟩
  have ht : condense_title twoBigParasHtml = "T" := rfl
  rw [extract_important_content_default, ht]
  have ha : ("<html><body><h1>T</h1>" : String).length = 22 := rfl
  have hb : ("</body></html>" : String).length = 14 := rfl
  simp [String.length_append, hcc, ha, hb]

/-- The accumulation loop's length never exceeds the larger of the
starting accumulator and `3001 + L`, for paragraphs of length at most
`L`. -/
theorem condense_content_loop_length_le (L : Nat) :
    ∀ (ps : List String) (acc : String), (∀ p ∈ ps, p.length ≤ L) →
      (condense_content_loop ps acc).length ≤ max acc.length (3001 + L) := by
  intro ps
  induction ps with
  | nil =>
    intro acc h
    simp [condense_content_loop]
  | cons p rest ih =>
    intro acc h
    rw [condense_content_loop]
    by_cases hlt : acc.length < 3000
    · rw [if_pos hlt]
      have hih := ih (acc ++ p ++ "\n\n")
        (fun q hq => h q (List.mem_cons_of_mem _ hq))
      have hp : p.length ≤ L := h p (List.mem_cons_self _ _)
      have hacc : (acc ++ p ++ "\n\n").length ≤ 3001 + L := by
        have : ("\n\n" : String).length = 2 := rfl
        simp [String.length_append, this]
        omega
      refine le_trans hih ?_
      have : max (acc ++ p ++ "\n\n").length (3001 + L) = 3001 + L := by omega
      rw [this]
      omega
    · rw [if_neg hlt]
      exact le_trans (ih acc (fun q hq => h q (List.mem_cons_of_mem _ hq)))
        (by omega)

/-- C9, amended.  For a source_url that is neither a search-results
page nor a known specification page, the output is the document title
(or "Unknown Title") and the accumulated text of at most the first 5
paragraph elements, where a paragraph is appended whole only while the
accumulated text is still under 3000 characters — so the accumulated
text is not limited to 3000 characters but only to `3001 + L` for
paragraphs of length at most `L`. -/
theorem condensed_default_semantics (searchBranch : String → String)
    (specBranch : String → Option String) (html url : String)
    (paras : List String) (L : Nat)
    (h1 : is_search_url url = false) (h2 : is_spec_url url = false)
    (hL : ∀ p ∈ paras, p.length ≤ L) :
    extract_important_content searchBranch specBranch html url
      = "<html><body><h1>" ++ condense_title html ++ "</h1>" ++
          condense_content (condense_paras html) ++ "</body></html>" ∧
    condense_content paras = condense_content (paras.take 5) ∧
    (condense_content paras).length ≤ 3001 + L := by
  refine ⟨?_, ?_, ?_⟩
  · rw [extract_important_content, h1, h2]
    rfl
  · rw [condense_content, condense_content, List.take_take, Nat.min_self]
  · have hb := condense_content_loop_length_le L (paras.take 5) ""
      (fun q hq => hL q (List.take_subset 5 paras hq))
    rw [condense_content]
    refine le_trans hb ?_
    simp

/-- C9, amended claim at a concrete non-search, non-specification
URL. -/
theorem condensed_default_semantics_witness :
    extract_important_content (fun _ => "") (fun _ => none)
        "<p>hi</p>" "https://example.org/article"
      = "<html><body><h1>Unknown Title</h1>hi\n\n</body></html>" := by
  have h := (condensed_default_semantics (fun _ => "") (fun _ => none)
    "<p>hi</p>" "https://example.org/article" [] 0
    (by decide) (by decide) (by simp)).1
  exact h.trans (by decide)

end DeepBrowse
